import Mathlib

/-!
Shallow embedding of the RAIL-Train repository's AI-adapter module
(src/gemini.ts) and of the UI submit/send handlers (src/App.tsx).

The external model call (ai.models.generateContent and
ai.models.generateContentStream) and JSON.parse are external library
calls; they are modelled as oracle parameters: the outcome of one
generateContent invocation is an Except value carrying the optional
response text, and JSON.parse is a function from strings to an Except
of JSON values.  The per-process caches (the five Maps of the cache
record at the top of src/gemini.ts) are modelled as association lists
threaded through each adapter.  Each adapter additionally reports how
many external model calls and JSON.parse invocations it performed and
whether it consulted its cache, so that the claims about call counts
are statable.
-/

namespace RailTrain

/-- JSON values as produced by JSON.parse (floats are not needed by any
claim; numbers are modelled as integers). -/
inductive Value where
  | null : Value
  | bool : Bool → Value
  | num : Int → Value
  | str : String → Value
  | arr : List Value → Value
  | obj : List (String × Value) → Value

/-- JavaScript truthiness of a JSON value: null, false, 0 and the empty
string are falsy; arrays and objects are always truthy. -/
def Value.truthy : Value → Bool
  | .null => false
  | .bool b => b
  | .num n => n != 0
  | .str s => s != ""
  | .arr _ => true
  | .obj _ => true

/-- The JavaScript expression v or-else d (written v with two vertical
bars and then d): v when v is truthy, d otherwise. -/
def jsOr (v d : Value) : Value := if v.truthy then v else d

/-- The JavaScript expression on the response text, text or-else d:
undefined and the empty string both fall back to the default literal. -/
def textOr (t : Option String) (d : String) : String :=
  match t with
  | none => d
  | some s => if s = "" then d else s

/-- Oracle for JSON.parse: either a parse error (JSON.parse throws) or a
JSON value. -/
abbrev ParseFn := String → Except Unit Value

/-- Outcome of one ai.models.generateContent call: either the call
throws, or it returns a response whose text field is an optional
string. -/
abbrev GenOutcome := Except Unit (Option String)

/-- The JS String.prototype.toLowerCase as used on the ASCII station
and query strings of this app: each character is lowercased.  (Defined
by structural recursion over the characters so that concrete keys
evaluate; String.toLower of core Lean is extensionally the same map
but is defined by well-founded recursion.) -/
def lowerStr (s : String) : String := ⟨s.data.map Char.toLower⟩

/-- Lookup in a JS Map modelled as an association list. -/
def mapGet : List (String × Value) → String → Option Value
  | [], _ => none
  | (k', v) :: rest, k => if k' = k then some v else mapGet rest k

/-- JS Map.set: overwrites the entry for the key if present, otherwise
appends a new entry. -/
def mapSet : List (String × Value) → String → Value → List (String × Value)
  | [], k, v => [(k, v)]
  | (k', v') :: rest, k, v =>
      if k' = k then (k, v) :: rest else (k', v') :: mapSet rest k v

/-- JS Map.has. -/
def mapHas (m : List (String × Value)) (k : String) : Bool :=
  (mapGet m k).isSome

/-- JS Map.get with undefined modelled as the (falsy) null value; only
used on keys that passed a Map.has check, where it is the stored
value. -/
def jsGet (m : List (String × Value)) (k : String) : Value :=
  (mapGet m k).getD .null

/-- The module-level cache record of src/gemini.ts: five Maps, one per
cached adapter. -/
structure Cache where
  search : List (String × Value)
  status : List (String × Value)
  suggestions : List (String × Value)
  schedules : List (String × Value)
  coaches : List (String × Value)

/-- The initial cache: five empty Maps. -/
def Cache.empty : Cache := ⟨[], [], [], [], []⟩

/-- Result of one cached-adapter invocation: the returned value, the
cache state after the call, the number of external model calls, the
number of JSON.parse invocations, and whether the cache was
consulted. -/
structure AdapterOut where
  ret : Value
  cache : Cache
  genCalls : Nat
  parseCalls : Nat
  readCache : Bool

/-- Embeds getStationSuggestionsAI (src/gemini.ts lines 49-76): guard on
short queries, cache keyed by the lowercased query, one external call,
parse with fallback text for a falsy response text, cache the parsed
result; on any exception return an empty array.  A cache hit returns
the JS expression get(cacheKey) or-else the empty array. -/
def getStationSuggestionsAI (parse : ParseFn) (gen : GenOutcome)
    (c : Cache) (query : String) : AdapterOut :=
  if query = "" ∨ query.length < 2 then ⟨.arr [], c, 0, 0, false⟩
  else
    let cacheKey := lowerStr query
    if mapHas c.suggestions cacheKey then
      ⟨jsOr (jsGet c.suggestions cacheKey) (.arr []), c, 0, 0, true⟩
    else
      match gen with
      | .error _ => ⟨.arr [], c, 1, 0, true⟩
      | .ok t =>
        match parse (textOr t "[]") with
        | .error _ => ⟨.arr [], c, 1, 1, true⟩
        | .ok results =>
            ⟨results, { c with suggestions := mapSet c.suggestions cacheKey results },
              1, 1, true⟩

/-- Embeds getCoachPositionAI (src/gemini.ts lines 81-117): cache keyed
by the raw train number, parse with fallback text null, null on any
exception. -/
def getCoachPositionAI (parse : ParseFn) (gen : GenOutcome)
    (c : Cache) (trainNumber : String) : AdapterOut :=
  if mapHas c.coaches trainNumber then
    ⟨jsGet c.coaches trainNumber, c, 0, 0, true⟩
  else
    match gen with
    | .error _ => ⟨.null, c, 1, 0, true⟩
    | .ok t =>
      match parse (textOr t "null") with
      | .error _ => ⟨.null, c, 1, 1, true⟩
      | .ok result =>
          ⟨result, { c with coaches := mapSet c.coaches trainNumber result }, 1, 1, true⟩

/-- Embeds getTrainScheduleAI (src/gemini.ts lines 122-161): same
pattern as the coach adapter, over the schedules Map. -/
def getTrainScheduleAI (parse : ParseFn) (gen : GenOutcome)
    (c : Cache) (trainNumber : String) : AdapterOut :=
  if mapHas c.schedules trainNumber then
    ⟨jsGet c.schedules trainNumber, c, 0, 0, true⟩
  else
    match gen with
    | .error _ => ⟨.null, c, 1, 0, true⟩
    | .ok t =>
      match parse (textOr t "null") with
      | .error _ => ⟨.null, c, 1, 1, true⟩
      | .ok result =>
          ⟨result, { c with schedules := mapSet c.schedules trainNumber result }, 1, 1, true⟩

/-- Embeds getLiveStatusAI (src/gemini.ts lines 236-272): cache keyed by
the raw train number, fallback text null, null on any exception. -/
def getLiveStatusAI (parse : ParseFn) (gen : GenOutcome)
    (c : Cache) (trainNumber : String) : AdapterOut :=
  if mapHas c.status trainNumber then
    ⟨jsGet c.status trainNumber, c, 0, 0, true⟩
  else
    match gen with
    | .error _ => ⟨.null, c, 1, 0, true⟩
    | .ok t =>
      match parse (textOr t "null") with
      | .error _ => ⟨.null, c, 1, 1, true⟩
      | .ok result =>
          ⟨result, { c with status := mapSet c.status trainNumber result }, 1, 1, true⟩

/-- Cache key of searchTrainsAI: the lowercased origin, a hyphen, and
the lowercased destination (src/gemini.ts line 199). -/
def searchKey (fromStation toStation : String) : String :=
  lowerStr fromStation ++ "-" ++ lowerStr toStation

/-- Embeds searchTrainsAI (src/gemini.ts lines 198-231): cache keyed by
searchKey, fallback text an empty JSON array, empty array on any
exception. -/
def searchTrainsAI (parse : ParseFn) (gen : GenOutcome)
    (c : Cache) (fromStation toStation : String) : AdapterOut :=
  let cacheKey := searchKey fromStation toStation
  if mapHas c.search cacheKey then
    ⟨jsGet c.search cacheKey, c, 0, 0, true⟩
  else
    match gen with
    | .error _ => ⟨.arr [], c, 1, 0, true⟩
    | .ok t =>
      match parse (textOr t "[]") with
      | .error _ => ⟨.arr [], c, 1, 1, true⟩
      | .ok results =>
          ⟨results, { c with search := mapSet c.search cacheKey results }, 1, 1, true⟩

/-- Result of one getRecentAlertsAI invocation; the function touches no
cache, so no cache state appears. -/
structure AlertsOut where
  ret : Value
  genCalls : Nat
  parseCalls : Nat

/-- Embeds getRecentAlertsAI (src/gemini.ts lines 166-193): one external
call on every invocation, no cache, empty array on any exception. -/
def getRecentAlertsAI (parse : ParseFn) (gen : GenOutcome) : AlertsOut :=
  match gen with
  | .error _ => ⟨.arr [], 1, 0⟩
  | .ok t =>
    match parse (textOr t "[]") with
    | .error _ => ⟨.arr [], 1, 1⟩
    | .ok results => ⟨results, 1, 1⟩

/-- Result of one assistant-stream invocation: the returned string and
the successive arguments passed to the onChunk callback, in order. -/
structure StreamOut where
  ret : String
  delivered : List String

/-- One iteration of the for-await loop of the assistant stream: a chunk
with truthy text extends the accumulated full text and delivers it
through onChunk; other chunks are skipped. -/
def streamStep (acc : String × List String) (t : Option String) :
    String × List String :=
  match t with
  | none => acc
  | some s => if s = "" then acc else (acc.1 ++ s, acc.2 ++ [acc.1 ++ s])

/-- The fallback message delivered through onChunk in the catch branch
of the assistant stream. -/
def apologyMsg : String :=
  "I\x27m having trouble connecting right now. Please try again!"

/-- Embeds getRailAssistantResponseStream (src/gemini.ts lines 19-44).
The stream outcome is the list of chunk texts successfully yielded,
followed by a flag saying whether the stream (or its initial call)
then threw; when it threw, the catch branch delivers the apology
message through onChunk and returns the string Error. -/
def getRailAssistantResponseStream (chunks : List (Option String))
    (thenThrew : Bool) (query : String) : StreamOut :=
  let r := chunks.foldl streamStep ("", [])
  if thenThrew then ⟨"Error", r.2 ++ [apologyMsg]⟩ else ⟨r.1, r.2⟩

/-- One chat message of the assistant overlay (role is the string user
or the string bot). -/
structure ChatMsg where
  role : String
  text : String

/-- The slice of the App component state (src/App.tsx) read or written
by the five submit/send handlers. -/
structure AppState where
  searchFrom : String
  searchTo : String
  trainResults : Value
  isLoading : Bool
  view : String
  liveSearchInput : String
  liveStatus : Value
  selectedTrain : Value
  scheduleInput : String
  scheduleData : Value
  coachInput : String
  coachData : Value
  botInput : String
  isBotTyping : Bool
  chatMessages : List ChatMsg

/-- Descriptor of one AI-adapter invocation made by a UI handler. -/
inductive AdapterCall where
  | searchTrains (fromStation toStation : String)
  | liveStatus (trainNumber : String)
  | schedule (trainNumber : String)
  | coachPos (trainNumber : String)
  | assistantStream (query : String)

/-- Embeds handleSearch (src/App.tsx lines 153-161): early return when
either station field is empty, otherwise switch to the search view and
make exactly one searchTrainsAI call. -/
def handleSearch (parse : ParseFn) (gen : GenOutcome) (c : Cache)
    (s : AppState) : AppState × Cache × List AdapterCall :=
  if s.searchFrom = "" ∨ s.searchTo = "" then (s, c, [])
  else
    let r := searchTrainsAI parse gen c s.searchFrom s.searchTo
    ({ s with view := "search", trainResults := r.ret, isLoading := false },
      r.cache, [.searchTrains s.searchFrom s.searchTo])

/-- Embeds handleLiveSearch (src/App.tsx lines 163-182): early return on
an empty input, otherwise build the placeholder selected train, switch
to the live view, and make exactly one getLiveStatusAI call. -/
def handleLiveSearch (parse : ParseFn) (gen : GenOutcome) (c : Cache)
    (s : AppState) : AppState × Cache × List AdapterCall :=
  if s.liveSearchInput = "" then (s, c, [])
  else
    let n := s.liveSearchInput
    let sel : Value := .obj
      [("number", .str n), ("name", .str ("Voyager " ++ n)),
       ("source", .str "---"), ("destination", .str "---"),
       ("departureTime", .str "--:--"), ("arrivalTime", .str "--:--"),
       ("runningDays", .arr []), ("classes", .arr [])]
    let r := getLiveStatusAI parse gen c n
    ({ s with
        selectedTrain := sel
        view := "live"
        liveStatus := r.ret
        isLoading := false },
      r.cache, [.liveStatus n])

/-- Embeds handleScheduleSearch (src/App.tsx lines 194-201): early
return on an empty input, otherwise exactly one getTrainScheduleAI
call. -/
def handleScheduleSearch (parse : ParseFn) (gen : GenOutcome) (c : Cache)
    (s : AppState) : AppState × Cache × List AdapterCall :=
  if s.scheduleInput = "" then (s, c, [])
  else
    let r := getTrainScheduleAI parse gen c s.scheduleInput
    ({ s with scheduleData := r.ret, isLoading := false },
      r.cache, [.schedule s.scheduleInput])

/-- Embeds handleCoachSearch (src/App.tsx lines 203-210): early return
on an empty input, otherwise exactly one getCoachPositionAI call. -/
def handleCoachSearch (parse : ParseFn) (gen : GenOutcome) (c : Cache)
    (s : AppState) : AppState × Cache × List AdapterCall :=
  if s.coachInput = "" then (s, c, [])
  else
    let r := getCoachPositionAI parse gen c s.coachInput
    ({ s with coachData := r.ret, isLoading := false },
      r.cache, [.coachPos s.coachInput])

/-- Embeds handleSendMessage (src/App.tsx lines 232-247): early return
when the trimmed input is empty or the bot is already typing; otherwise
append the user message and an empty bot message, make exactly one
assistant-stream call whose onChunk callback rewrites the trailing bot
message, and clear the typing flag.  The net effect of the successive
onChunk updates is that the trailing bot message holds the last
delivered text. -/
def handleSendMessage (chunks : List (Option String)) (thenThrew : Bool)
    (s : AppState) : AppState × List AdapterCall :=
  if s.botInput.trim = "" ∨ s.isBotTyping then (s, [])
  else
    let userMsg := s.botInput
    let r := getRailAssistantResponseStream chunks thenThrew userMsg
    let finalText := (r.delivered.getLast?).getD ""
    ({ s with
        botInput := ""
        isBotTyping := false
        chatMessages := s.chatMessages ++ [⟨"user", userMsg⟩, ⟨"bot", finalText⟩] },
      [.assistantStream userMsg])

/-- Concrete restriction of JSON.parse to the handful of documents used
by witnesses and counterexamples: the document null parses to the null
value, the empty-array document parses to an empty array, and the
document 7 parses to the number 7; everything else is treated as a
parse error. -/
def parse0 : ParseFn := fun s =>
  if s = "null" then .ok .null
  else if s = "[]" then .ok (.arr [])
  else if s = "7" then .ok (.num 7)
  else .error ()

/-- Every cache entry of c is still present, with the same value, in
the cache c2: no entry was removed or overwritten. -/
def preservesEntries (c c2 : Cache) : Prop :=
  (∀ k v, mapGet c.search k = some v → mapGet c2.search k = some v) ∧
  (∀ k v, mapGet c.status k = some v → mapGet c2.status k = some v) ∧
  (∀ k v, mapGet c.suggestions k = some v → mapGet c2.suggestions k = some v) ∧
  (∀ k v, mapGet c.schedules k = some v → mapGet c2.schedules k = some v) ∧
  (∀ k v, mapGet c.coaches k = some v → mapGet c2.coaches k = some v)

/-! Helper lemmas about the Map model. -/

theorem mapGet_mapSet_self (m : List (String × Value)) (k : String) (v : Value) :
    mapGet (mapSet m k v) k = some v := by
  induction m with
  | nil => simp [mapSet, mapGet]
  | cons hd tl ih =>
    obtain ⟨k', v'⟩ := hd
    by_cases h : k' = k
    · simp [mapSet, mapGet, h]
    · simp [mapSet, mapGet, h, ih]

theorem mapGet_mapSet_of_none (m : List (String × Value)) (k k' : String)
    (v w : Value) (h1 : mapGet m k = some v) (h2 : mapGet m k' = none) :
    mapGet (mapSet m k' w) k = some v := by
  induction m with
  | nil => simp [mapGet] at h1
  | cons hd tl ih =>
    obtain ⟨a, b⟩ := hd
    by_cases ha' : a = k'
    · rw [mapGet, if_pos ha'] at h2
      exact absurd h2 (by simp)
    · rw [mapGet, if_neg ha'] at h2
      by_cases ha : a = k
      · subst ha
        rw [mapGet, if_pos rfl] at h1
        simp [mapSet, ha', mapGet, h1]
      · rw [mapGet, if_neg ha] at h1
        simp [mapSet, ha', mapGet, ha, ih h1 h2]

theorem mapHas_of_get_some (m : List (String × Value)) (k : String) (v : Value)
    (h : mapGet m k = some v) : mapHas m k = true := by
  simp [mapHas, h]

/-! Helper lemmas: case analyses of the cached adapters. -/

theorem searchTrainsAI_hit (parse : ParseFn) (gen : GenOutcome) (c : Cache)
    (f t : String) (v : Value) (h : mapGet c.search (searchKey f t) = some v) :
    searchTrainsAI parse gen c f t = ⟨v, c, 0, 0, true⟩ := by
  simp [searchTrainsAI, mapHas, jsGet, h]

theorem searchTrainsAI_miss_genErr (parse : ParseFn) (c : Cache) (f t : String)
    (h : mapHas c.search (searchKey f t) = false) :
    searchTrainsAI parse (.error ()) c f t = ⟨.arr [], c, 1, 0, true⟩ := by
  simp [searchTrainsAI, h]

theorem searchTrainsAI_miss_parseErr (parse : ParseFn) (c : Cache) (f t : String)
    (t0 : Option String) (h : mapHas c.search (searchKey f t) = false)
    (hp : parse (textOr t0 "[]") = .error ()) :
    searchTrainsAI parse (.ok t0) c f t = ⟨.arr [], c, 1, 1, true⟩ := by
  simp [searchTrainsAI, h, hp]

theorem searchTrainsAI_miss_ok (parse : ParseFn) (c : Cache) (f t : String)
    (t0 : Option String) (v : Value) (h : mapHas c.search (searchKey f t) = false)
    (hp : parse (textOr t0 "[]") = .ok v) :
    searchTrainsAI parse (.ok t0) c f t =
      ⟨v, { c with search := mapSet c.search (searchKey f t) v }, 1, 1, true⟩ := by
  simp [searchTrainsAI, h, hp]

theorem searchTrainsAI_miss_genCalls (parse : ParseFn) (gen : GenOutcome)
    (c : Cache) (f t : String) (h : mapHas c.search (searchKey f t) = false) :
    (searchTrainsAI parse gen c f t).genCalls = 1 := by
  cases gen with
  | error e => rw [searchTrainsAI_miss_genErr parse c f t h]
  | ok t0 =>
    rcases hp : parse (textOr t0 "[]") with e | v
    · rw [searchTrainsAI_miss_parseErr parse c f t t0 h hp]
    · rw [searchTrainsAI_miss_ok parse c f t t0 v h hp]

theorem getStationSuggestionsAI_shortQuery (parse : ParseFn) (gen : GenOutcome)
    (c : Cache) (q : String) (h : q = "" ∨ q.length < 2) :
    getStationSuggestionsAI parse gen c q = ⟨.arr [], c, 0, 0, false⟩ := by
  rw [getStationSuggestionsAI, if_pos h]

theorem suggestions_guard_false (q : String) (hq : 2 ≤ q.length) :
    ¬(q = "" ∨ q.length < 2) := by
  rintro (rfl | h)
  · simp at hq
  · omega

theorem getStationSuggestionsAI_hit (parse : ParseFn) (gen : GenOutcome)
    (c : Cache) (q : String) (v : Value) (hq : 2 ≤ q.length)
    (h : mapGet c.suggestions (lowerStr q) = some v) :
    getStationSuggestionsAI parse gen c q = ⟨jsOr v (.arr []), c, 0, 0, true⟩ := by
  rw [getStationSuggestionsAI, if_neg (suggestions_guard_false q hq)]
  simp [mapHas, jsGet, h]

theorem getStationSuggestionsAI_miss_genErr (parse : ParseFn) (c : Cache)
    (q : String) (hq : 2 ≤ q.length) (h : mapHas c.suggestions (lowerStr q) = false) :
    getStationSuggestionsAI parse (.error ()) c q = ⟨.arr [], c, 1, 0, true⟩ := by
  rw [getStationSuggestionsAI, if_neg (suggestions_guard_false q hq)]
  simp [h]

theorem getStationSuggestionsAI_miss_parseErr (parse : ParseFn) (c : Cache)
    (q : String) (t0 : Option String) (hq : 2 ≤ q.length)
    (h : mapHas c.suggestions (lowerStr q) = false)
    (hp : parse (textOr t0 "[]") = .error ()) :
    getStationSuggestionsAI parse (.ok t0) c q = ⟨.arr [], c, 1, 1, true⟩ := by
  rw [getStationSuggestionsAI, if_neg (suggestions_guard_false q hq)]
  simp [h, hp]

theorem getStationSuggestionsAI_miss_ok (parse : ParseFn) (c : Cache)
    (q : String) (t0 : Option String) (v : Value) (hq : 2 ≤ q.length)
    (h : mapHas c.suggestions (lowerStr q) = false)
    (hp : parse (textOr t0 "[]") = .ok v) :
    getStationSuggestionsAI parse (.ok t0) c q =
      ⟨v, { c with suggestions := mapSet c.suggestions (lowerStr q) v }, 1, 1, true⟩ := by
  rw [getStationSuggestionsAI, if_neg (suggestions_guard_false q hq)]
  simp [h, hp]

theorem getStationSuggestionsAI_miss_genCalls (parse : ParseFn) (gen : GenOutcome)
    (c : Cache) (q : String) (hq : 2 ≤ q.length)
    (h : mapHas c.suggestions (lowerStr q) = false) :
    (getStationSuggestionsAI parse gen c q).genCalls = 1 := by
  cases gen with
  | error e => rw [getStationSuggestionsAI_miss_genErr parse c q hq h]
  | ok t0 =>
    rcases hp : parse (textOr t0 "[]") with e | v
    · rw [getStationSuggestionsAI_miss_parseErr parse c q t0 hq h hp]
    · rw [getStationSuggestionsAI_miss_ok parse c q t0 v hq h hp]

theorem getLiveStatusAI_hit (parse : ParseFn) (gen : GenOutcome) (c : Cache)
    (n : String) (v : Value) (h : mapGet c.status n = some v) :
    getLiveStatusAI parse gen c n = ⟨v, c, 0, 0, true⟩ := by
  simp [getLiveStatusAI, mapHas, jsGet, h]

theorem getLiveStatusAI_miss_genErr (parse : ParseFn) (c : Cache) (n : String)
    (h : mapHas c.status n = false) :
    getLiveStatusAI parse (.error ()) c n = ⟨.null, c, 1, 0, true⟩ := by
  simp [getLiveStatusAI, h]

theorem getLiveStatusAI_miss_parseErr (parse : ParseFn) (c : Cache) (n : String)
    (t0 : Option String) (h : mapHas c.status n = false)
    (hp : parse (textOr t0 "null") = .error ()) :
    getLiveStatusAI parse (.ok t0) c n = ⟨.null, c, 1, 1, true⟩ := by
  simp [getLiveStatusAI, h, hp]

theorem getLiveStatusAI_miss_ok (parse : ParseFn) (c : Cache) (n : String)
    (t0 : Option String) (v : Value) (h : mapHas c.status n = false)
    (hp : parse (textOr t0 "null") = .ok v) :
    getLiveStatusAI parse (.ok t0) c n =
      ⟨v, { c with status := mapSet c.status n v }, 1, 1, true⟩ := by
  simp [getLiveStatusAI, h, hp]

theorem getLiveStatusAI_miss_genCalls (parse : ParseFn) (gen : GenOutcome)
    (c : Cache) (n : String) (h : mapHas c.status n = false) :
    (getLiveStatusAI parse gen c n).genCalls = 1 := by
  cases gen with
  | error e => rw [getLiveStatusAI_miss_genErr parse c n h]
  | ok t0 =>
    rcases hp : parse (textOr t0 "null") with e | v
    · rw [getLiveStatusAI_miss_parseErr parse c n t0 h hp]
    · rw [getLiveStatusAI_miss_ok parse c n t0 v h hp]

theorem getTrainScheduleAI_hit (parse : ParseFn) (gen : GenOutcome) (c : Cache)
    (n : String) (v : Value) (h : mapGet c.schedules n = some v) :
    getTrainScheduleAI parse gen c n = ⟨v, c, 0, 0, true⟩ := by
  simp [getTrainScheduleAI, mapHas, jsGet, h]

theorem getTrainScheduleAI_miss_genErr (parse : ParseFn) (c : Cache) (n : String)
    (h : mapHas c.schedules n = false) :
    getTrainScheduleAI parse (.error ()) c n = ⟨.null, c, 1, 0, true⟩ := by
  simp [getTrainScheduleAI, h]

theorem getTrainScheduleAI_miss_parseErr (parse : ParseFn) (c : Cache) (n : String)
    (t0 : Option String) (h : mapHas c.schedules n = false)
    (hp : parse (textOr t0 "null") = .error ()) :
    getTrainScheduleAI parse (.ok t0) c n = ⟨.null, c, 1, 1, true⟩ := by
  simp [getTrainScheduleAI, h, hp]

theorem getTrainScheduleAI_miss_ok (parse : ParseFn) (c : Cache) (n : String)
    (t0 : Option String) (v : Value) (h : mapHas c.schedules n = false)
    (hp : parse (textOr t0 "null") = .ok v) :
    getTrainScheduleAI parse (.ok t0) c n =
      ⟨v, { c with schedules := mapSet c.schedules n v }, 1, 1, true⟩ := by
  simp [getTrainScheduleAI, h, hp]

theorem getTrainScheduleAI_miss_genCalls (parse : ParseFn) (gen : GenOutcome)
    (c : Cache) (n : String) (h : mapHas c.schedules n = false) :
    (getTrainScheduleAI parse gen c n).genCalls = 1 := by
  cases gen with
  | error e => rw [getTrainScheduleAI_miss_genErr parse c n h]
  | ok t0 =>
    rcases hp : parse (textOr t0 "null") with e | v
    · rw [getTrainScheduleAI_miss_parseErr parse c n t0 h hp]
    · rw [getTrainScheduleAI_miss_ok parse c n t0 v h hp]

theorem getCoachPositionAI_hit (parse : ParseFn) (gen : GenOutcome) (c : Cache)
    (n : String) (v : Value) (h : mapGet c.coaches n = some v) :
    getCoachPositionAI parse gen c n = ⟨v, c, 0, 0, true⟩ := by
  simp [getCoachPositionAI, mapHas, jsGet, h]

theorem getCoachPositionAI_miss_genErr (parse : ParseFn) (c : Cache) (n : String)
    (h : mapHas c.coaches n = false) :
    getCoachPositionAI parse (.error ()) c n = ⟨.null, c, 1, 0, true⟩ := by
  simp [getCoachPositionAI, h]

theorem getCoachPositionAI_miss_parseErr (parse : ParseFn) (c : Cache) (n : String)
    (t0 : Option String) (h : mapHas c.coaches n = false)
    (hp : parse (textOr t0 "null") = .error ()) :
    getCoachPositionAI parse (.ok t0) c n = ⟨.null, c, 1, 1, true⟩ := by
  simp [getCoachPositionAI, h, hp]

theorem getCoachPositionAI_miss_ok (parse : ParseFn) (c : Cache) (n : String)
    (t0 : Option String) (v : Value) (h : mapHas c.coaches n = false)
    (hp : parse (textOr t0 "null") = .ok v) :
    getCoachPositionAI parse (.ok t0) c n =
      ⟨v, { c with coaches := mapSet c.coaches n v }, 1, 1, true⟩ := by
  simp [getCoachPositionAI, h, hp]

theorem getCoachPositionAI_miss_genCalls (parse : ParseFn) (gen : GenOutcome)
    (c : Cache) (n : String) (h : mapHas c.coaches n = false) :
    (getCoachPositionAI parse gen c n).genCalls = 1 := by
  cases gen with
  | error e => rw [getCoachPositionAI_miss_genErr parse c n h]
  | ok t0 =>
    rcases hp : parse (textOr t0 "null") with e | v
    · rw [getCoachPositionAI_miss_parseErr parse c n t0 h hp]
    · rw [getCoachPositionAI_miss_ok parse c n t0 v h hp]

/-! Helper lemmas: alerts adapter and assistant stream. -/

theorem getRecentAlertsAI_genCalls (parse : ParseFn) (gen : GenOutcome) :
    (getRecentAlertsAI parse gen).genCalls = 1 := by
  cases gen with
  | error e => rfl
  | ok t0 =>
    rcases hp : parse (textOr t0 "[]") with e | v <;>
      simp [getRecentAlertsAI, hp]

theorem stream_throw_ret (chunks : List (Option String)) (q : String) :
    (getRailAssistantResponseStream chunks true q).ret = "Error" := rfl

theorem stream_throw_last (chunks : List (Option String)) (q : String) :
    (getRailAssistantResponseStream chunks true q).delivered.getLast? =
      some apologyMsg := by
  show ((chunks.foldl streamStep ("", [])).2 ++ [apologyMsg]).getLast? = some apologyMsg
  rw [List.getLast?_append_cons]
  rfl

/-! Claim theorems. -/

/-- C1: for every adapter of the AI module and every input on which the
adapter actually issues its external call (a cache miss and, for the
suggestions adapter, a query of length at least two; the alerts adapter
always calls), when the external call throws the adapter swallows the
exception and returns its safe default: an empty array for
searchTrainsAI, getStationSuggestionsAI and getRecentAlertsAI, null for
getLiveStatusAI, getTrainScheduleAI and getCoachPositionAI, and for the
assistant stream the apology message is the last text delivered through
the onChunk callback. -/
theorem C1_safe_default_on_throw :
    (∀ (parse : ParseFn) (c : Cache) (f t : String),
        mapHas c.search (searchKey f t) = false →
        (searchTrainsAI parse (.error ()) c f t).ret = .arr []) ∧
    (∀ (parse : ParseFn) (c : Cache) (q : String), 2 ≤ q.length →
        mapHas c.suggestions (lowerStr q) = false →
        (getStationSuggestionsAI parse (.error ()) c q).ret = .arr []) ∧
    (∀ parse : ParseFn, (getRecentAlertsAI parse (.error ())).ret = .arr []) ∧
    (∀ (parse : ParseFn) (c : Cache) (n : String), mapHas c.status n = false →
        (getLiveStatusAI parse (.error ()) c n).ret = .null) ∧
    (∀ (parse : ParseFn) (c : Cache) (n : String), mapHas c.schedules n = false →
        (getTrainScheduleAI parse (.error ()) c n).ret = .null) ∧
    (∀ (parse : ParseFn) (c : Cache) (n : String), mapHas c.coaches n = false →
        (getCoachPositionAI parse (.error ()) c n).ret = .null) ∧
    (∀ (chunks : List (Option String)) (q : String),
        (getRailAssistantResponseStream chunks true q).ret = "Error" ∧
        (getRailAssistantResponseStream chunks true q).delivered.getLast? =
          some apologyMsg) := by
  refine ⟨?_, ?_, ?_, ?_, ?_, ?_, ?_⟩
  · intro parse c f t h; rw [searchTrainsAI_miss_genErr parse c f t h]
  · intro parse c q hq h; rw [getStationSuggestionsAI_miss_genErr parse c q hq h]
  · intro parse; rfl
  · intro parse c n h; rw [getLiveStatusAI_miss_genErr parse c n h]
  · intro parse c n h; rw [getTrainScheduleAI_miss_genErr parse c n h]
  · intro parse c n h; rw [getCoachPositionAI_miss_genErr parse c n h]
  · intro chunks q; exact ⟨stream_throw_ret chunks q, stream_throw_last chunks q⟩

/-- Witness for C1 at concrete inputs: the empty cache misses every
key, so a throwing external call yields the documented defaults. -/
theorem C1_safe_default_on_throw_witness :
    (searchTrainsAI parse0 (.error ()) Cache.empty "NDLS" "BSB").ret = .arr [] ∧
    (getStationSuggestionsAI parse0 (.error ()) Cache.empty "de").ret = .arr [] ∧
    (getLiveStatusAI parse0 (.error ()) Cache.empty "12002").ret = .null ∧
    (getTrainScheduleAI parse0 (.error ()) Cache.empty "12002").ret = .null ∧
    (getCoachPositionAI parse0 (.error ()) Cache.empty "12002").ret = .null :=
  ⟨C1_safe_default_on_throw.1 parse0 Cache.empty "NDLS" "BSB" rfl,
   C1_safe_default_on_throw.2.1 parse0 Cache.empty "de" (by decide) rfl,
   C1_safe_default_on_throw.2.2.2.1 parse0 Cache.empty "12002" rfl,
   C1_safe_default_on_throw.2.2.2.2.1 parse0 Cache.empty "12002" rfl,
   C1_safe_default_on_throw.2.2.2.2.2.1 parse0 Cache.empty "12002" rfl⟩

/-- C9: a query that is empty or shorter than two characters makes
getStationSuggestionsAI return an empty array at once: no external
call, no JSON.parse, no cache read and no cache write. -/
theorem C9_short_query_guard (parse : ParseFn) (gen : GenOutcome)
    (c : Cache) (q : String) (h : q = "" ∨ q.length < 2) :
    getStationSuggestionsAI parse gen c q = ⟨.arr [], c, 0, 0, false⟩ :=
  getStationSuggestionsAI_shortQuery parse gen c q h

/-- Witness for C9 at the one-character query a. -/
theorem C9_short_query_guard_witness :
    getStationSuggestionsAI parse0 (.error ()) Cache.empty "a" =
      ⟨.arr [], Cache.empty, 0, 0, false⟩ :=
  C9_short_query_guard parse0 (.error ()) Cache.empty "a" (Or.inr (by decide))

/-- C10: the search cache key is the lowercased origin, a hyphen, and
the lowercased destination, so the distinct input pairs (a-b, c) and
(a, b-c) share the cache entry keyed a-b-c: after the first pair's
result (the number 7) is cached, a call with the second pair returns
that cached result without any external call. -/
theorem C10_search_key_collision :
    searchKey "a-b" "c" = searchKey "a" "b-c" ∧
    (("a-b", "c") ≠ (("a" : String), ("b-c" : String))) ∧
    (searchTrainsAI parse0 (.ok (some "7")) Cache.empty "a-b" "c").ret = .num 7 ∧
    (searchTrainsAI parse0 (.ok (some "[]"))
        (searchTrainsAI parse0 (.ok (some "7")) Cache.empty "a-b" "c").cache
        "a" "b-c").ret = .num 7 ∧
    (searchTrainsAI parse0 (.ok (some "[]"))
        (searchTrainsAI parse0 (.ok (some "7")) Cache.empty "a-b" "c").cache
        "a" "b-c").genCalls = 0 := by
  refine ⟨rfl, by decide, rfl, rfl, rfl⟩

/-- C7: each of the five UI submit/send handlers of src/App.tsx
(handleSearch, handleLiveSearch, handleScheduleSearch,
handleCoachSearch, handleSendMessage) invokes at most one AI-adapter
function per invocation; since the single call is awaited inside the
handler, no invocation ever has more than one call outstanding. -/
theorem C7_at_most_one_adapter_call_per_handler (parse : ParseFn)
    (gen : GenOutcome) (c : Cache) (s : AppState)
    (chunks : List (Option String)) (thenThrew : Bool) :
    (handleSearch parse gen c s).2.2.length ≤ 1 ∧
    (handleLiveSearch parse gen c s).2.2.length ≤ 1 ∧
    (handleScheduleSearch parse gen c s).2.2.length ≤ 1 ∧
    (handleCoachSearch parse gen c s).2.2.length ≤ 1 ∧
    (handleSendMessage chunks thenThrew s).2.length ≤ 1 := by
  refine ⟨?_, ?_, ?_, ?_, ?_⟩
  · rw [handleSearch]; split <;> simp
  · rw [handleLiveSearch]; split <;> simp
  · rw [handleScheduleSearch]; split <;> simp
  · rw [handleCoachSearch]; split <;> simp
  · rw [handleSendMessage]; split <;> simp

/-- C8: for every cached adapter, when the external call throws or the
JSON parse of its response throws, the cache is left unchanged, so a
second call with the identical query misses the cache again and issues
a fresh external call (one generateContent call, whatever its
outcome). -/
theorem C8_failures_not_cached :
    (∀ (parse : ParseFn) (gen : GenOutcome) (c : Cache) (f t : String),
      mapHas c.search (searchKey f t) = false →
      (gen = .error () ∨ ∃ t0, gen = .ok t0 ∧ parse (textOr t0 "[]") = .error ()) →
      (searchTrainsAI parse gen c f t).cache = c ∧
      ∀ gen2, (searchTrainsAI parse gen2 (searchTrainsAI parse gen c f t).cache
        f t).genCalls = 1) ∧
    (∀ (parse : ParseFn) (gen : GenOutcome) (c : Cache) (q : String),
      2 ≤ q.length → mapHas c.suggestions (lowerStr q) = false →
      (gen = .error () ∨ ∃ t0, gen = .ok t0 ∧ parse (textOr t0 "[]") = .error ()) →
      (getStationSuggestionsAI parse gen c q).cache = c ∧
      ∀ gen2, (getStationSuggestionsAI parse gen2
        (getStationSuggestionsAI parse gen c q).cache q).genCalls = 1) ∧
    (∀ (parse : ParseFn) (gen : GenOutcome) (c : Cache) (n : String),
      mapHas c.status n = false →
      (gen = .error () ∨ ∃ t0, gen = .ok t0 ∧ parse (textOr t0 "null") = .error ()) →
      (getLiveStatusAI parse gen c n).cache = c ∧
      ∀ gen2, (getLiveStatusAI parse gen2 (getLiveStatusAI parse gen c n).cache
        n).genCalls = 1) ∧
    (∀ (parse : ParseFn) (gen : GenOutcome) (c : Cache) (n : String),
      mapHas c.schedules n = false →
      (gen = .error () ∨ ∃ t0, gen = .ok t0 ∧ parse (textOr t0 "null") = .error ()) →
      (getTrainScheduleAI parse gen c n).cache = c ∧
      ∀ gen2, (getTrainScheduleAI parse gen2 (getTrainScheduleAI parse gen c n).cache
        n).genCalls = 1) ∧
    (∀ (parse : ParseFn) (gen : GenOutcome) (c : Cache) (n : String),
      mapHas c.coaches n = false →
      (gen = .error () ∨ ∃ t0, gen = .ok t0 ∧ parse (textOr t0 "null") = .error ()) →
      (getCoachPositionAI parse gen c n).cache = c ∧
      ∀ gen2, (getCoachPositionAI parse gen2 (getCoachPositionAI parse gen c n).cache
        n).genCalls = 1) := by
  refine ⟨?_, ?_, ?_, ?_, ?_⟩
  · intro parse gen c f t h hfail
    have hc : (searchTrainsAI parse gen c f t).cache = c := by
      rcases hfail with rfl | ⟨t0, rfl, hp⟩
      · rw [searchTrainsAI_miss_genErr parse c f t h]
      · rw [searchTrainsAI_miss_parseErr parse c f t t0 h hp]
    refine ⟨hc, fun gen2 => ?_⟩
    rw [hc]
    exact searchTrainsAI_miss_genCalls parse gen2 c f t h
  · intro parse gen c q hq h hfail
    have hc : (getStationSuggestionsAI parse gen c q).cache = c := by
      rcases hfail with rfl | ⟨t0, rfl, hp⟩
      · rw [getStationSuggestionsAI_miss_genErr parse c q hq h]
      · rw [getStationSuggestionsAI_miss_parseErr parse c q t0 hq h hp]
    refine ⟨hc, fun gen2 => ?_⟩
    rw [hc]
    exact getStationSuggestionsAI_miss_genCalls parse gen2 c q hq h
  · intro parse gen c n h hfail
    have hc : (getLiveStatusAI parse gen c n).cache = c := by
      rcases hfail with rfl | ⟨t0, rfl, hp⟩
      · rw [getLiveStatusAI_miss_genErr parse c n h]
      · rw [getLiveStatusAI_miss_parseErr parse c n t0 h hp]
    refine ⟨hc, fun gen2 => ?_⟩
    rw [hc]
    exact getLiveStatusAI_miss_genCalls parse gen2 c n h
  · intro parse gen c n h hfail
    have hc : (getTrainScheduleAI parse gen c n).cache = c := by
      rcases hfail with rfl | ⟨t0, rfl, hp⟩
      · rw [getTrainScheduleAI_miss_genErr parse c n h]
      · rw [getTrainScheduleAI_miss_parseErr parse c n t0 h hp]
    refine ⟨hc, fun gen2 => ?_⟩
    rw [hc]
    exact getTrainScheduleAI_miss_genCalls parse gen2 c n h
  · intro parse gen c n h hfail
    have hc : (getCoachPositionAI parse gen c n).cache = c := by
      rcases hfail with rfl | ⟨t0, rfl, hp⟩
      · rw [getCoachPositionAI_miss_genErr parse c n h]
      · rw [getCoachPositionAI_miss_parseErr parse c n t0 h hp]
    refine ⟨hc, fun gen2 => ?_⟩
    rw [hc]
    exact getCoachPositionAI_miss_genCalls parse gen2 c n h

/-- Witness for C8 at concrete inputs: a throwing call on an empty
cache for the search adapter, and a response whose text fails to parse
for the live-status adapter, both leave the cache empty and the second
identical call issues one external call. -/
theorem C8_failures_not_cached_witness :
    ((searchTrainsAI parse0 (.error ()) Cache.empty "NDLS" "BSB").cache =
      Cache.empty ∧
     ∀ gen2, (searchTrainsAI parse0 gen2
       (searchTrainsAI parse0 (.error ()) Cache.empty "NDLS" "BSB").cache
       "NDLS" "BSB").genCalls = 1) ∧
    ((getLiveStatusAI parse0 (.ok (some "oops")) Cache.empty "12002").cache =
      Cache.empty ∧
     ∀ gen2, (getLiveStatusAI parse0 gen2
       (getLiveStatusAI parse0 (.ok (some "oops")) Cache.empty "12002").cache
       "12002").genCalls = 1) :=
  ⟨C8_failures_not_cached.1 parse0 (.error ()) Cache.empty "NDLS" "BSB" rfl
      (Or.inl rfl),
   C8_failures_not_cached.2.2.1 parse0 (.ok (some "oops")) Cache.empty "12002" rfl
      (Or.inr ⟨some "oops", rfl, rfl⟩)⟩

/-! Helper lemmas: cache-entry preservation. -/

theorem preservesEntries_refl (c : Cache) : preservesEntries c c :=
  ⟨fun _ _ h => h, fun _ _ h => h, fun _ _ h => h, fun _ _ h => h, fun _ _ h => h⟩

theorem mapGet_none_of_has_false (m : List (String × Value)) (k : String)
    (h : mapHas m k = false) : mapGet m k = none := by
  cases hm : mapGet m k with
  | none => rfl
  | some v => rw [mapHas, hm] at h; simp at h

theorem exists_get_of_has (m : List (String × Value)) (k : String)
    (h : mapHas m k = true) : ∃ v, mapGet m k = some v := by
  cases hm : mapGet m k with
  | none => rw [mapHas, hm] at h; simp at h
  | some v => exact ⟨v, rfl⟩

theorem searchTrainsAI_preserves (parse : ParseFn) (gen : GenOutcome) (c : Cache)
    (f t : String) : preservesEntries c (searchTrainsAI parse gen c f t).cache := by
  by_cases h : mapHas c.search (searchKey f t)
  · obtain ⟨v, hv⟩ := exists_get_of_has _ _ h
    rw [searchTrainsAI_hit parse gen c f t v hv]
    exact preservesEntries_refl c
  · rw [Bool.not_eq_true] at h
    cases gen with
    | error e =>
      rw [searchTrainsAI_miss_genErr parse c f t h]; exact preservesEntries_refl c
    | ok t0 =>
      rcases hp : parse (textOr t0 "[]") with e | v
      · rw [searchTrainsAI_miss_parseErr parse c f t t0 h hp]
        exact preservesEntries_refl c
      · rw [searchTrainsAI_miss_ok parse c f t t0 v h hp]
        refine ⟨?_, fun _ _ hh => hh, fun _ _ hh => hh, fun _ _ hh => hh,
          fun _ _ hh => hh⟩
        intro k w hw
        exact mapGet_mapSet_of_none _ _ _ _ _ hw (mapGet_none_of_has_false _ _ h)

theorem getStationSuggestionsAI_preserves (parse : ParseFn) (gen : GenOutcome)
    (c : Cache) (q : String) :
    preservesEntries c (getStationSuggestionsAI parse gen c q).cache := by
  by_cases hg : q = "" ∨ q.length < 2
  · rw [getStationSuggestionsAI_shortQuery parse gen c q hg]
    exact preservesEntries_refl c
  · have hq : 2 ≤ q.length := by
      rcases Nat.lt_or_ge q.length 2 with hlt | hge
      · exact absurd (Or.inr hlt) hg
      · exact hge
    by_cases h : mapHas c.suggestions (lowerStr q)
    · obtain ⟨v, hv⟩ := exists_get_of_has _ _ h
      rw [getStationSuggestionsAI_hit parse gen c q v hq hv]
      exact preservesEntries_refl c
    · rw [Bool.not_eq_true] at h
      cases gen with
      | error e =>
        rw [getStationSuggestionsAI_miss_genErr parse c q hq h]
        exact preservesEntries_refl c
      | ok t0 =>
        rcases hp : parse (textOr t0 "[]") with e | v
        · rw [getStationSuggestionsAI_miss_parseErr parse c q t0 hq h hp]
          exact preservesEntries_refl c
        · rw [getStationSuggestionsAI_miss_ok parse c q t0 v hq h hp]
          refine ⟨fun _ _ hh => hh, fun _ _ hh => hh, ?_, fun _ _ hh => hh,
            fun _ _ hh => hh⟩
          intro k w hw
          exact mapGet_mapSet_of_none _ _ _ _ _ hw (mapGet_none_of_has_false _ _ h)

theorem getLiveStatusAI_preserves (parse : ParseFn) (gen : GenOutcome) (c : Cache)
    (n : String) : preservesEntries c (getLiveStatusAI parse gen c n).cache := by
  by_cases h : mapHas c.status n
  · obtain ⟨v, hv⟩ := exists_get_of_has _ _ h
    rw [getLiveStatusAI_hit parse gen c n v hv]
    exact preservesEntries_refl c
  · rw [Bool.not_eq_true] at h
    cases gen with
    | error e =>
      rw [getLiveStatusAI_miss_genErr parse c n h]; exact preservesEntries_refl c
    | ok t0 =>
      rcases hp : parse (textOr t0 "null") with e | v
      · rw [getLiveStatusAI_miss_parseErr parse c n t0 h hp]
        exact preservesEntries_refl c
      · rw [getLiveStatusAI_miss_ok parse c n t0 v h hp]
        refine ⟨fun _ _ hh => hh, ?_, fun _ _ hh => hh, fun _ _ hh => hh,
          fun _ _ hh => hh⟩
        intro k w hw
        exact mapGet_mapSet_of_none _ _ _ _ _ hw (mapGet_none_of_has_false _ _ h)

theorem getTrainScheduleAI_preserves (parse : ParseFn) (gen : GenOutcome)
    (c : Cache) (n : String) :
    preservesEntries c (getTrainScheduleAI parse gen c n).cache := by
  by_cases h : mapHas c.schedules n
  · obtain ⟨v, hv⟩ := exists_get_of_has _ _ h
    rw [getTrainScheduleAI_hit parse gen c n v hv]
    exact preservesEntries_refl c
  · rw [Bool.not_eq_true] at h
    cases gen with
    | error e =>
      rw [getTrainScheduleAI_miss_genErr parse c n h]; exact preservesEntries_refl c
    | ok t0 =>
      rcases hp : parse (textOr t0 "null") with e | v
      · rw [getTrainScheduleAI_miss_parseErr parse c n t0 h hp]
        exact preservesEntries_refl c
      · rw [getTrainScheduleAI_miss_ok parse c n t0 v h hp]
        refine ⟨fun _ _ hh => hh, fun _ _ hh => hh, fun _ _ hh => hh, ?_,
          fun _ _ hh => hh⟩
        intro k w hw
        exact mapGet_mapSet_of_none _ _ _ _ _ hw (mapGet_none_of_has_false _ _ h)

theorem getCoachPositionAI_preserves (parse : ParseFn) (gen : GenOutcome)
    (c : Cache) (n : String) :
    preservesEntries c (getCoachPositionAI parse gen c n).cache := by
  by_cases h : mapHas c.coaches n
  · obtain ⟨v, hv⟩ := exists_get_of_has _ _ h
    rw [getCoachPositionAI_hit parse gen c n v hv]
    exact preservesEntries_refl c
  · rw [Bool.not_eq_true] at h
    cases gen with
    | error e =>
      rw [getCoachPositionAI_miss_genErr parse c n h]; exact preservesEntries_refl c
    | ok t0 =>
      rcases hp : parse (textOr t0 "null") with e | v
      · rw [getCoachPositionAI_miss_parseErr parse c n t0 h hp]
        exact preservesEntries_refl c
      · rw [getCoachPositionAI_miss_ok parse c n t0 v h hp]
        refine ⟨fun _ _ hh => hh, fun _ _ hh => hh, fun _ _ hh => hh,
          fun _ _ hh => hh, ?_⟩
        intro k w hw
        exact mapGet_mapSet_of_none _ _ _ _ _ hw (mapGet_none_of_has_false _ _ h)

/-- C2 counterexample: when its external call throws, the assistant
stream adapter (getRailAssistantResponseStream) returns the string
Error, a non-empty string that is neither an empty collection nor a
null value, so it is false that every adapter returns an empty
collection or null on failure. -/
theorem C2_counterexample :
    (getRailAssistantResponseStream [] true "hello").ret = "Error" ∧
    ("Error" : String) ≠ "" :=
  ⟨rfl, by decide⟩

/-- C2 amended: for every adapter and every input on which the external
call is issued, any failure (a throwing call, or a throwing JSON parse
of its response) is swallowed and no exception propagates; the six data
adapters return an empty array or null, while the assistant stream
returns the string Error and delivers the apology message through its
onChunk callback. -/
theorem C2_amended_failures_swallowed :
    (∀ (parse : ParseFn) (gen : GenOutcome) (c : Cache) (f t : String),
      mapHas c.search (searchKey f t) = false →
      (gen = .error () ∨ ∃ t0, gen = .ok t0 ∧ parse (textOr t0 "[]") = .error ()) →
      (searchTrainsAI parse gen c f t).ret = .arr []) ∧
    (∀ (parse : ParseFn) (gen : GenOutcome) (c : Cache) (q : String),
      2 ≤ q.length → mapHas c.suggestions (lowerStr q) = false →
      (gen = .error () ∨ ∃ t0, gen = .ok t0 ∧ parse (textOr t0 "[]") = .error ()) →
      (getStationSuggestionsAI parse gen c q).ret = .arr []) ∧
    (∀ (parse : ParseFn) (gen : GenOutcome),
      (gen = .error () ∨ ∃ t0, gen = .ok t0 ∧ parse (textOr t0 "[]") = .error ()) →
      (getRecentAlertsAI parse gen).ret = .arr []) ∧
    (∀ (parse : ParseFn) (gen : GenOutcome) (c : Cache) (n : String),
      mapHas c.status n = false →
      (gen = .error () ∨ ∃ t0, gen = .ok t0 ∧ parse (textOr t0 "null") = .error ()) →
      (getLiveStatusAI parse gen c n).ret = .null) ∧
    (∀ (parse : ParseFn) (gen : GenOutcome) (c : Cache) (n : String),
      mapHas c.schedules n = false →
      (gen = .error () ∨ ∃ t0, gen = .ok t0 ∧ parse (textOr t0 "null") = .error ()) →
      (getTrainScheduleAI parse gen c n).ret = .null) ∧
    (∀ (parse : ParseFn) (gen : GenOutcome) (c : Cache) (n : String),
      mapHas c.coaches n = false →
      (gen = .error () ∨ ∃ t0, gen = .ok t0 ∧ parse (textOr t0 "null") = .error ()) →
      (getCoachPositionAI parse gen c n).ret = .null) ∧
    (∀ (chunks : List (Option String)) (q : String),
      (getRailAssistantResponseStream chunks true q).ret = "Error" ∧
      (getRailAssistantResponseStream chunks true q).delivered.getLast? =
        some apologyMsg) := by
  refine ⟨?_, ?_, ?_, ?_, ?_, ?_, ?_⟩
  · intro parse gen c f t h hfail
    rcases hfail with rfl | ⟨t0, rfl, hp⟩
    · rw [searchTrainsAI_miss_genErr parse c f t h]
    · rw [searchTrainsAI_miss_parseErr parse c f t t0 h hp]
  · intro parse gen c q hq h hfail
    rcases hfail with rfl | ⟨t0, rfl, hp⟩
    · rw [getStationSuggestionsAI_miss_genErr parse c q hq h]
    · rw [getStationSuggestionsAI_miss_parseErr parse c q t0 hq h hp]
  · intro parse gen hfail
    rcases hfail with rfl | ⟨t0, rfl, hp⟩
    · rfl
    · simp [getRecentAlertsAI, hp]
  · intro parse gen c n h hfail
    rcases hfail with rfl | ⟨t0, rfl, hp⟩
    · rw [getLiveStatusAI_miss_genErr parse c n h]
    · rw [getLiveStatusAI_miss_parseErr parse c n t0 h hp]
  · intro parse gen c n h hfail
    rcases hfail with rfl | ⟨t0, rfl, hp⟩
    · rw [getTrainScheduleAI_miss_genErr parse c n h]
    · rw [getTrainScheduleAI_miss_parseErr parse c n t0 h hp]
  · intro parse gen c n h hfail
    rcases hfail with rfl | ⟨t0, rfl, hp⟩
    · rw [getCoachPositionAI_miss_genErr parse c n h]
    · rw [getCoachPositionAI_miss_parseErr parse c n t0 h hp]
  · intro chunks q
    exact ⟨stream_throw_ret chunks q, stream_throw_last chunks q⟩

/-- Witness for the amended C2 at concrete inputs: an unparsable
response text for the search adapter yields an empty array, and a
throwing call for the coach adapter yields null. -/
theorem C2_amended_failures_swallowed_witness :
    (searchTrainsAI parse0 (.ok (some "oops")) Cache.empty "NDLS" "BSB").ret =
      .arr [] ∧
    (getCoachPositionAI parse0 (.error ()) Cache.empty "12002").ret = .null :=
  ⟨C2_amended_failures_swallowed.1 parse0 (.ok (some "oops")) Cache.empty
      "NDLS" "BSB" rfl (Or.inr ⟨some "oops", rfl, rfl⟩),
   C2_amended_failures_swallowed.2.2.2.2.2.1 parse0 (.error ()) Cache.empty
      "12002" rfl (Or.inl rfl)⟩

/-- C3 counterexample: getRecentAlertsAI maintains no cache, so a
second invocation with the identical (empty) query issues a fresh
external call (one generateContent call) and can return a value
different from the first invocation's result, instead of the first
call's cached result. -/
theorem C3_counterexample :
    (getRecentAlertsAI parse0 (.ok (some "7"))).ret = .num 7 ∧
    (getRecentAlertsAI parse0 (.error ())).ret = .arr [] ∧
    (getRecentAlertsAI parse0 (.error ())).genCalls = 1 ∧
    Value.num 7 ≠ Value.arr [] :=
  ⟨rfl, rfl, rfl, nofun⟩

/-- C3 amended: only the five query-keyed adapters memoize per query
string: after a first call stores a parsed result, a second call with
the identical query performs no external call and returns the stored
value (coerced to an empty array by the suggestions adapter when the
stored value is falsy); the alerts adapter has no cache and issues one
fresh external call on every invocation, and the assistant stream
caches nothing. -/
theorem C3_amended_memoization :
    (∀ (parse : ParseFn) (gen2 : GenOutcome) (c : Cache) (f t : String)
        (t0 : Option String) (v : Value),
      mapHas c.search (searchKey f t) = false → parse (textOr t0 "[]") = .ok v →
      (searchTrainsAI parse gen2
        (searchTrainsAI parse (.ok t0) c f t).cache f t).ret = v ∧
      (searchTrainsAI parse gen2
        (searchTrainsAI parse (.ok t0) c f t).cache f t).genCalls = 0) ∧
    (∀ (parse : ParseFn) (gen2 : GenOutcome) (c : Cache) (q : String)
        (t0 : Option String) (v : Value),
      2 ≤ q.length → mapHas c.suggestions (lowerStr q) = false →
      parse (textOr t0 "[]") = .ok v →
      (getStationSuggestionsAI parse gen2
        (getStationSuggestionsAI parse (.ok t0) c q).cache q).ret =
        jsOr v (.arr []) ∧
      (getStationSuggestionsAI parse gen2
        (getStationSuggestionsAI parse (.ok t0) c q).cache q).genCalls = 0) ∧
    (∀ (parse : ParseFn) (gen2 : GenOutcome) (c : Cache) (n : String)
        (t0 : Option String) (v : Value),
      mapHas c.status n = false → parse (textOr t0 "null") = .ok v →
      (getLiveStatusAI parse gen2
        (getLiveStatusAI parse (.ok t0) c n).cache n).ret = v ∧
      (getLiveStatusAI parse gen2
        (getLiveStatusAI parse (.ok t0) c n).cache n).genCalls = 0) ∧
    (∀ (parse : ParseFn) (gen2 : GenOutcome) (c : Cache) (n : String)
        (t0 : Option String) (v : Value),
      mapHas c.schedules n = false → parse (textOr t0 "null") = .ok v →
      (getTrainScheduleAI parse gen2
        (getTrainScheduleAI parse (.ok t0) c n).cache n).ret = v ∧
      (getTrainScheduleAI parse gen2
        (getTrainScheduleAI parse (.ok t0) c n).cache n).genCalls = 0) ∧
    (∀ (parse : ParseFn) (gen2 : GenOutcome) (c : Cache) (n : String)
        (t0 : Option String) (v : Value),
      mapHas c.coaches n = false → parse (textOr t0 "null") = .ok v →
      (getCoachPositionAI parse gen2
        (getCoachPositionAI parse (.ok t0) c n).cache n).ret = v ∧
      (getCoachPositionAI parse gen2
        (getCoachPositionAI parse (.ok t0) c n).cache n).genCalls = 0) ∧
    (∀ (parse : ParseFn) (gen : GenOutcome),
      (getRecentAlertsAI parse gen).genCalls = 1) := by
  refine ⟨?_, ?_, ?_, ?_, ?_, getRecentAlertsAI_genCalls⟩
  · intro parse gen2 c f t t0 v h hp
    rw [searchTrainsAI_miss_ok parse c f t t0 v h hp]
    rw [searchTrainsAI_hit parse gen2 _ f t v (mapGet_mapSet_self _ _ _)]
    exact ⟨rfl, rfl⟩
  · intro parse gen2 c q t0 v hq h hp
    rw [getStationSuggestionsAI_miss_ok parse c q t0 v hq h hp]
    rw [getStationSuggestionsAI_hit parse gen2 _ q v hq (mapGet_mapSet_self _ _ _)]
    exact ⟨rfl, rfl⟩
  · intro parse gen2 c n t0 v h hp
    rw [getLiveStatusAI_miss_ok parse c n t0 v h hp]
    rw [getLiveStatusAI_hit parse gen2 _ n v (mapGet_mapSet_self _ _ _)]
    exact ⟨rfl, rfl⟩
  · intro parse gen2 c n t0 v h hp
    rw [getTrainScheduleAI_miss_ok parse c n t0 v h hp]
    rw [getTrainScheduleAI_hit parse gen2 _ n v (mapGet_mapSet_self _ _ _)]
    exact ⟨rfl, rfl⟩
  · intro parse gen2 c n t0 v h hp
    rw [getCoachPositionAI_miss_ok parse c n t0 v h hp]
    rw [getCoachPositionAI_hit parse gen2 _ n v (mapGet_mapSet_self _ _ _)]
    exact ⟨rfl, rfl⟩

/-- Witness for the amended C3 at concrete inputs: after a first search
call caches the number 7, the identical second call returns 7 without
an external call. -/
theorem C3_amended_memoization_witness :
    (searchTrainsAI parse0 (.error ())
      (searchTrainsAI parse0 (.ok (some "7")) Cache.empty "NDLS" "BSB").cache
      "NDLS" "BSB").ret = .num 7 ∧
    (searchTrainsAI parse0 (.error ())
      (searchTrainsAI parse0 (.ok (some "7")) Cache.empty "NDLS" "BSB").cache
      "NDLS" "BSB").genCalls = 0 :=
  C3_amended_memoization.1 parse0 (.error ()) Cache.empty "NDLS" "BSB"
    (some "7") (.num 7) rfl rfl

/-- C4 counterexample: the suggestions cache can hold a falsy value
(the external model answering the JSON document null is parsed and
stored as null); the next call with the same query keeps hitting the
cache (no external call, no parse) but returns an empty array, not the
stored value, because the hit branch evaluates get(cacheKey) or-else
the empty array. -/
theorem C4_counterexample :
    mapGet (getStationSuggestionsAI parse0 (.ok (some "null"))
      Cache.empty "ab").cache.suggestions "ab" = some .null ∧
    (getStationSuggestionsAI parse0 (.ok (some "[]"))
      (getStationSuggestionsAI parse0 (.ok (some "null"))
        Cache.empty "ab").cache "ab").ret = .arr [] ∧
    (getStationSuggestionsAI parse0 (.ok (some "[]"))
      (getStationSuggestionsAI parse0 (.ok (some "null"))
        Cache.empty "ab").cache "ab").genCalls = 0 ∧
    (getStationSuggestionsAI parse0 (.ok (some "[]"))
      (getStationSuggestionsAI parse0 (.ok (some "null"))
        Cache.empty "ab").cache "ab").parseCalls = 0 ∧
    Value.arr [] ≠ Value.null :=
  ⟨rfl, rfl, rfl, rfl, nofun⟩

/-- C4 amended: for each of the five cached adapters, a cache hit
performs no external model call and no JSON parse and leaves the cache
unchanged; the four adapters keyed by train number or search pair
return the stored value verbatim, while getStationSuggestionsAI
returns the stored value coerced to an empty array when that value is
falsy. -/
theorem C4_amended_cache_hit_short_circuits :
    (∀ (parse : ParseFn) (gen : GenOutcome) (c : Cache) (f t : String) (v : Value),
      mapGet c.search (searchKey f t) = some v →
      searchTrainsAI parse gen c f t = ⟨v, c, 0, 0, true⟩) ∧
    (∀ (parse : ParseFn) (gen : GenOutcome) (c : Cache) (q : String) (v : Value),
      2 ≤ q.length → mapGet c.suggestions (lowerStr q) = some v →
      getStationSuggestionsAI parse gen c q = ⟨jsOr v (.arr []), c, 0, 0, true⟩) ∧
    (∀ (parse : ParseFn) (gen : GenOutcome) (c : Cache) (n : String) (v : Value),
      mapGet c.status n = some v →
      getLiveStatusAI parse gen c n = ⟨v, c, 0, 0, true⟩) ∧
    (∀ (parse : ParseFn) (gen : GenOutcome) (c : Cache) (n : String) (v : Value),
      mapGet c.schedules n = some v →
      getTrainScheduleAI parse gen c n = ⟨v, c, 0, 0, true⟩) ∧
    (∀ (parse : ParseFn) (gen : GenOutcome) (c : Cache) (n : String) (v : Value),
      mapGet c.coaches n = some v →
      getCoachPositionAI parse gen c n = ⟨v, c, 0, 0, true⟩) :=
  ⟨searchTrainsAI_hit, getStationSuggestionsAI_hit, getLiveStatusAI_hit,
   getTrainScheduleAI_hit, getCoachPositionAI_hit⟩

/-- Witness for the amended C4 at a concrete cache holding the number 7
under the key a-b: the hit returns 7 and makes no calls. -/
theorem C4_amended_cache_hit_short_circuits_witness :
    searchTrainsAI parse0 (.error ()) ⟨[("a-b", .num 7)], [], [], [], []⟩ "A" "B" =
      ⟨.num 7, ⟨[("a-b", .num 7)], [], [], [], []⟩, 0, 0, true⟩ :=
  C4_amended_cache_hit_short_circuits.1 parse0 (.error ())
    ⟨[("a-b", .num 7)], [], [], [], []⟩ "A" "B" (.num 7) rfl

/-- C5 counterexample: the first suggestions call for the query np
returns and stores null; a later call with the same key leaves the
entry untouched but returns an empty array rather than exactly the
value first stored. -/
theorem C5_counterexample :
    (getStationSuggestionsAI parse0 (.ok (some "null"))
      Cache.empty "np").ret = .null ∧
    mapGet (getStationSuggestionsAI parse0 (.ok (some "null"))
      Cache.empty "np").cache.suggestions "np" = some .null ∧
    (getStationSuggestionsAI parse0 (.ok (some "[]"))
      (getStationSuggestionsAI parse0 (.ok (some "null"))
        Cache.empty "np").cache "np").ret = .arr [] ∧
    Value.arr [] ≠ Value.null :=
  ⟨rfl, rfl, rfl, nofun⟩

/-- C5 amended: once a cache entry is written, no subsequent call of
any of the five cached adapters removes or overwrites any existing
entry of any of the five maps (single writer per entry, retention for
the process lifetime); every later call with the same key performs no
external call and returns the stored value, except the suggestions
adapter, which returns an empty array in place of a falsy stored
value. -/
theorem C5_amended_entries_persist :
    (∀ (parse : ParseFn) (gen : GenOutcome) (c : Cache) (f t : String),
      preservesEntries c (searchTrainsAI parse gen c f t).cache) ∧
    (∀ (parse : ParseFn) (gen : GenOutcome) (c : Cache) (q : String),
      preservesEntries c (getStationSuggestionsAI parse gen c q).cache) ∧
    (∀ (parse : ParseFn) (gen : GenOutcome) (c : Cache) (n : String),
      preservesEntries c (getLiveStatusAI parse gen c n).cache) ∧
    (∀ (parse : ParseFn) (gen : GenOutcome) (c : Cache) (n : String),
      preservesEntries c (getTrainScheduleAI parse gen c n).cache) ∧
    (∀ (parse : ParseFn) (gen : GenOutcome) (c : Cache) (n : String),
      preservesEntries c (getCoachPositionAI parse gen c n).cache) ∧
    (∀ (parse : ParseFn) (gen : GenOutcome) (c : Cache) (f t : String) (v : Value),
      mapGet c.search (searchKey f t) = some v →
      (searchTrainsAI parse gen c f t).ret = v ∧
      (searchTrainsAI parse gen c f t).genCalls = 0) ∧
    (∀ (parse : ParseFn) (gen : GenOutcome) (c : Cache) (q : String) (v : Value),
      2 ≤ q.length → mapGet c.suggestions (lowerStr q) = some v →
      (getStationSuggestionsAI parse gen c q).ret = jsOr v (.arr []) ∧
      (getStationSuggestionsAI parse gen c q).genCalls = 0) ∧
    (∀ (parse : ParseFn) (gen : GenOutcome) (c : Cache) (n : String) (v : Value),
      mapGet c.status n = some v →
      (getLiveStatusAI parse gen c n).ret = v ∧
      (getLiveStatusAI parse gen c n).genCalls = 0) ∧
    (∀ (parse : ParseFn) (gen : GenOutcome) (c : Cache) (n : String) (v : Value),
      mapGet c.schedules n = some v →
      (getTrainScheduleAI parse gen c n).ret = v ∧
      (getTrainScheduleAI parse gen c n).genCalls = 0) ∧
    (∀ (parse : ParseFn) (gen : GenOutcome) (c : Cache) (n : String) (v : Value),
      mapGet c.coaches n = some v →
      (getCoachPositionAI parse gen c n).ret = v ∧
      (getCoachPositionAI parse gen c n).genCalls = 0) := by
  refine ⟨searchTrainsAI_preserves, getStationSuggestionsAI_preserves,
    getLiveStatusAI_preserves, getTrainScheduleAI_preserves,
    getCoachPositionAI_preserves, ?_, ?_, ?_, ?_, ?_⟩
  · intro parse gen c f t v h
    rw [searchTrainsAI_hit parse gen c f t v h]; exact ⟨rfl, rfl⟩
  · intro parse gen c q v hq h
    rw [getStationSuggestionsAI_hit parse gen c q v hq h]; exact ⟨rfl, rfl⟩
  · intro parse gen c n v h
    rw [getLiveStatusAI_hit parse gen c n v h]; exact ⟨rfl, rfl⟩
  · intro parse gen c n v h
    rw [getTrainScheduleAI_hit parse gen c n v h]; exact ⟨rfl, rfl⟩
  · intro parse gen c n v h
    rw [getCoachPositionAI_hit parse gen c n v h]; exact ⟨rfl, rfl⟩

/-- Witness for the amended C5 at a concrete cache holding the number 7
in the status map: the entry survives a schedule-adapter call, and the
same-key status call returns the stored 7 without an external call. -/
theorem C5_amended_entries_persist_witness :
    mapGet (getTrainScheduleAI parse0 (.ok (some "null"))
      ⟨[], [("12002", .num 7)], [], [], []⟩ "999").cache.status "12002" =
      some (.num 7) ∧
    (getLiveStatusAI parse0 (.error ())
      ⟨[], [("12002", .num 7)], [], [], []⟩ "12002").ret = .num 7 :=
  ⟨(C5_amended_entries_persist.2.2.2.1 parse0 (.ok (some "null"))
      ⟨[], [("12002", .num 7)], [], [], []⟩ "999").2.1 "12002" (.num 7) rfl,
   (C5_amended_entries_persist.2.2.2.2.2.2.2.1 parse0 (.error ())
      ⟨[], [("12002", .num 7)], [], [], []⟩ "12002" (.num 7) rfl).1⟩

/-- C6 counterexample: the case variants AB and ab of a query do share
the suggestions cache entry keyed ab, but when the stored value is
falsy (here null, parsed from the model answering the document null for
the query AB) the call with the other variant returns an empty array,
not the identical cached value. -/
theorem C6_counterexample :
    lowerStr "AB" = lowerStr "ab" ∧
    ("AB" : String) ≠ "ab" ∧
    mapGet (getStationSuggestionsAI parse0 (.ok (some "null"))
      Cache.empty "AB").cache.suggestions "ab" = some .null ∧
    (getStationSuggestionsAI parse0 (.ok (some "[]"))
      (getStationSuggestionsAI parse0 (.ok (some "null"))
        Cache.empty "AB").cache "ab").ret = .arr [] ∧
    (getStationSuggestionsAI parse0 (.ok (some "[]"))
      (getStationSuggestionsAI parse0 (.ok (some "null"))
        Cache.empty "AB").cache "ab").genCalls = 0 ∧
    Value.arr [] ≠ Value.null :=
  ⟨rfl, by decide, rfl, rfl, rfl, nofun⟩

/-- C6 amended: result caching is keyed by the lowercased query, so for
queries differing only in letter case the adapters address the same
cache entry: after either variant's result is cached, a call with the
other variant performs no external call; searchTrainsAI then returns
the identical cached value, and getStationSuggestionsAI returns the
cached value coerced to an empty array when it is falsy. -/
theorem C6_amended_lowercase_keying :
    (∀ (parse : ParseFn) (gen2 : GenOutcome) (c : Cache) (q1 q2 : String)
        (t0 : Option String) (v : Value),
      lowerStr q1 = lowerStr q2 → 2 ≤ q1.length → 2 ≤ q2.length →
      mapHas c.suggestions (lowerStr q1) = false →
      parse (textOr t0 "[]") = .ok v →
      (getStationSuggestionsAI parse gen2
        (getStationSuggestionsAI parse (.ok t0) c q1).cache q2).ret =
        jsOr v (.arr []) ∧
      (getStationSuggestionsAI parse gen2
        (getStationSuggestionsAI parse (.ok t0) c q1).cache q2).genCalls = 0) ∧
    (∀ (parse : ParseFn) (gen2 : GenOutcome) (c : Cache) (f1 t1 f2 t2 : String)
        (t0 : Option String) (v : Value),
      lowerStr f1 = lowerStr f2 → lowerStr t1 = lowerStr t2 →
      mapHas c.search (searchKey f1 t1) = false →
      parse (textOr t0 "[]") = .ok v →
      (searchTrainsAI parse gen2
        (searchTrainsAI parse (.ok t0) c f1 t1).cache f2 t2).ret = v ∧
      (searchTrainsAI parse gen2
        (searchTrainsAI parse (.ok t0) c f1 t1).cache f2 t2).genCalls = 0) := by
  constructor
  · intro parse gen2 c q1 q2 t0 v hcase h1 h2 h hp
    rw [getStationSuggestionsAI_miss_ok parse c q1 t0 v h1 h hp]
    have hkey : mapGet (mapSet c.suggestions (lowerStr q1) v) (lowerStr q2) =
        some v := by
      rw [← hcase]; exact mapGet_mapSet_self _ _ _
    rw [getStationSuggestionsAI_hit parse gen2 _ q2 v h2 hkey]
    exact ⟨rfl, rfl⟩
  · intro parse gen2 c f1 t1 f2 t2 t0 v hf ht h hp
    rw [searchTrainsAI_miss_ok parse c f1 t1 t0 v h hp]
    have hkey : mapGet (mapSet c.search (searchKey f1 t1) v) (searchKey f2 t2) =
        some v := by
      rw [searchKey, searchKey, ← hf, ← ht]
      exact mapGet_mapSet_self _ _ _
    rw [searchTrainsAI_hit parse gen2 _ f2 t2 v hkey]
    exact ⟨rfl, rfl⟩

/-- Witness for the amended C6: a first call with the uppercase query
DEL caches the number 7 under del; the call with the lowercase variant
del returns it without an external call. -/
theorem C6_amended_lowercase_keying_witness :
    (getStationSuggestionsAI parse0 (.error ())
      (getStationSuggestionsAI parse0 (.ok (some "7"))
        Cache.empty "DEL").cache "del").ret = jsOr (.num 7) (.arr []) ∧
    (getStationSuggestionsAI parse0 (.error ())
      (getStationSuggestionsAI parse0 (.ok (some "7"))
        Cache.empty "DEL").cache "del").genCalls = 0 :=
  C6_amended_lowercase_keying.1 parse0 (.error ()) Cache.empty "DEL" "del"
    (some "7") (.num 7) rfl (by decide) (by decide) rfl rfl

end RailTrain
